import Mathlib

/-!
Shallow embedding of `chimestock` (src/chimestock/chimestock.py): a stock
tracker that polls URLs for an "In stock" marker and emails notifications
on changes.  Python exceptions are modelled with `Except`/`Option PyError`;
mutation is modelled by explicit state passing; network fetches are an
environment parameter `fetch : String → Except PyError String`.
-/

namespace Chimestock

/-- Exceptions the program can raise: `ValueError`, `AssertionError`,
network errors from `aiohttp`, and `smtplib` errors (tagged with the
SMTP stage that raised). -/
inductive PyError where
  | valueError (msg : String)
  | assertionError (msg : String)
  | fetchError (msg : String)
  | smtpError (stage : String)
deriving DecidableEq, Repr

/-- Dynamic Python values, as far as the `isinstance` assertions need. -/
inductive PyVal where
  | none
  | bool (b : Bool)
  | int (n : Int)
  | float
  | str (s : String)
deriving DecidableEq, Repr

/-- `isinstance(v, int)`; in Python `bool` is a subclass of `int`. -/
def PyVal.isInt : PyVal → Bool
  | .int _ => true
  | .bool _ => true
  | _ => false

/-- `isinstance(v, str)`. -/
def PyVal.isStr : PyVal → Bool
  | .str _ => true
  | _ => false

/-- `isinstance(v, (int, float))`. -/
def PyVal.isNumeric : PyVal → Bool
  | .int _ => true
  | .bool _ => true
  | .float => true
  | _ => false

/-- State of `Item`: `stock` is `None` before the first successful update
(`Option.none` here), a boolean afterwards. -/
structure Item where
  url : String
  stock : Option Bool
  stockChanged : Bool
  stockString : String
deriving DecidableEq, Repr

/-- `Item.__init__`. -/
def Item.init (url : String) : Item :=
  { url := url, stock := Option.none, stockChanged := false,
    stockString := "In stock" }

/-- Whether `pat` occurs as a contiguous run inside `l`. -/
def listHasInfix (pat : List Char) : List Char → Bool
  | [] => pat.isEmpty
  | c :: rest => pat.isPrefixOf (c :: rest) || listHasInfix pat rest

/-- `bool(re.search(pattern, text))` for the literal pattern "In stock"
(no regex metacharacters): substring search. -/
def containsMarker (pattern text : String) : Bool :=
  listHasInfix pattern.data text.data

/-- `Item.update`, given the result of `pull()`.  Returns the item state
after the call together with the exception raised, if any; all raises
happen before any field is mutated. -/
def Item.update (item : Item) (fetched : Except PyError String) :
    Item × Option PyError :=
  match fetched with
  | .error e => (item, Option.some e)
  | .ok text =>
    if text.isEmpty then
      (item, Option.some (.valueError "Data missing from request"))
    else
      let stock := containsMarker item.stockString text
      let changed := decide (Option.some stock ≠ item.stock)
        && decide (item.stock ≠ Option.none)
      ({ item with stockChanged := changed, stock := Option.some stock },
       Option.none)

/-- `Item.__str__`; `self.stock` is truthy exactly when it is `True`. -/
def Item.toStr (item : Item) : String :=
  let stock := if item.stock == Option.some true then "in" else "out of"
  "Item is " ++ stock ++ " stock\n" ++ item.url ++ "\n"

/-- State of `Store`.  `items` is a Python `set`; we model it as a list
(URL uniqueness is the invariant `noDupUrls`).  The password may be `None`. -/
structure Store where
  items : List Item
  newInStock : Nat
  totalInStock : Nat
  debug : Bool
  server : String
  port : Int
  sender : String
  recipient : String
  password : Option String
deriving DecidableEq, Repr

/-- The `port` property setter asserts `isinstance(val, int)` with the
message "Must be int". -/
def portSetter : PyVal → Except PyError Int
  | .int n => .ok n
  | .bool b => .ok (if b then 1 else 0)
  | _ => .error (.assertionError "Must be int")

/-- The `sender` property setter: asserts the value is not `None`
("Sender address cannot be empty"), then that it is a `str`. -/
def senderSetter : PyVal → Except PyError String
  | .none => .error (.assertionError "Sender address cannot be empty")
  | .str s => .ok s
  | _ => .error (.assertionError "Must be str")

/-- `.lstrip().rstrip()` with the default whitespace set. -/
def pyStrip (s : String) : String := s.trim

/-- The default server "smtp.gmail.com" when the argument is `None`. -/
def serverName : Option String → String
  | Option.none => "smtp.gmail.com"
  | Option.some s => s

/-- `Store.__init__`.  The three `prompt*` arguments are what `input()` /
`getpass()` would return if the corresponding prompt fires. -/
def Store.init (server : Option String) (port : PyVal) (sender : Option String)
    (password : Option String) (recipient : Option String) (debug : Bool)
    (promptSender promptRecipient promptPassword : String) :
    Except PyError Store :=
  match portSetter port with
  | .error e => .error e
  | .ok portVal =>
    let senderArg : String :=
      match sender with
      | Option.none => pyStrip promptSender
      | Option.some s => if s.isEmpty then pyStrip promptSender else s
    match senderSetter (.str senderArg) with
    | .error e => .error e
    | .ok senderVal =>
      let recipientVal : String :=
        match recipient with
        | Option.none =>
          let prompted := pyStrip promptRecipient
          if prompted.isEmpty then senderVal else prompted
        | Option.some _ => senderVal
      let passwordVal : Option String :=
        if !(serverName server).isEmpty && !senderVal.isEmpty
            && (match password with
                | Option.none => true
                | Option.some p => p.isEmpty) then
          Option.some promptPassword
        else password
      .ok { items := [], newInStock := 0, totalInStock := 0, debug := debug,
            server := serverName server, port := portVal, sender := senderVal,
            recipient := recipientVal, password := passwordVal }

/-- `Store.add`: for each URL, assert it is a string; skip it if already
tracked; otherwise build an `Item`, run its first `update`, and insert it
only on success.  An exception aborts the loop, keeping items added so far. -/
def Store.add : Store → (String → Except PyError String) → List PyVal →
    Store × Option PyError
  | s, _, [] => (s, Option.none)
  | s, fetch, url :: rest =>
    match url with
    | .str u =>
      if s.items.any (fun item => item.url == u) then s.add fetch rest
      else
        match (Item.init u).update (fetch u) with
        | (_, Option.some e) => (s, Option.some e)
        | (newItem, Option.none) =>
          Store.add { s with items := s.items ++ [newItem] } fetch rest
    | _ => (s, Option.some (.assertionError "URL must be a string"))

/-- `Store.remove`: the assertion loop runs over all URLs before the set is
filtered, so a bad argument leaves the items untouched. -/
def Store.remove (s : Store) (urls : List PyVal) : Store × Option PyError :=
  if urls.all PyVal.isStr then
    ({ s with items :=
        s.items.filter (fun item => decide (PyVal.str item.url ∉ urls)) },
     Option.none)
  else (s, Option.some (.assertionError "URL must be a string"))

/-- The `for item in self.items: await item.update()` loop: stops at the
first exception, leaving later items (and the raising item) unchanged. -/
def updateAll (fetch : String → Except PyError String) :
    List Item → List Item × Option PyError
  | [] => ([], Option.none)
  | item :: rest =>
    match item.update (fetch item.url) with
    | (item0, Option.some e) => (item0 :: rest, Option.some e)
    | (item1, Option.none) =>
      let p := updateAll fetch rest
      (item1 :: p.1, p.2)

/-- `Store.update`: refresh every item, then recompute the two counters
(Python sums booleans, i.e. counts the `True`s); counters are untouched
when an item update raises. -/
def Store.update (s : Store) (fetch : String → Except PyError String) :
    Store × Option PyError :=
  match updateAll fetch s.items with
  | (its, Option.some e) => ({ s with items := its }, Option.some e)
  | (its, Option.none) =>
    if s.debug then
      ({ s with
          items := its
          newInStock := its.length
          totalInStock := its.length }, Option.none)
    else
      ({ s with
          items := its
          newInStock := (its.map (fun item => item.stockChanged.toNat)).sum
          totalInStock :=
            (its.map (fun item => (item.stock == Option.some true).toNat)).sum },
       Option.none)

/-- `Store.email_message`. -/
def Store.emailMessage (s : Store) : String :=
  let new := if s.debug then s.items
    else s.items.filter (fun item => item.stockChanged)
  String.intercalate "\n" (new.map Item.toStr)

/-- `Store.email_subject`. -/
def Store.emailSubject (s : Store) : String :=
  "(" ++ toString s.newInStock ++ " new, " ++ toString s.totalInStock
    ++ " total) items in stock"

/-- The subject line as the spec words it: `"({new} new, {total} total)
items in stock"` with the counts substituted. -/
def specEmailSubject (new total : Nat) : String :=
  "(" ++ toString new ++ " new, " ++ toString total ++ " total) items in stock"

/-- Which SMTP calls succeed in a given run of `send_email`. -/
structure SmtpEnv where
  connectOk : Bool
  ehloOk : Bool
  starttlsOk : Bool
  loginOk : Bool
  sendmailOk : Bool
  quitOk : Bool
deriving DecidableEq, Repr

/-- `Store.send_email`: only `sendmail` sits inside the `try`; a failure of
the constructor (connect), `ehlo`, `starttls`, `login`, or the `finally`
`quit` propagates as an exception. -/
def Store.sendEmail (s : Store) (env : SmtpEnv) : Except PyError Bool :=
  if !env.connectOk then .error (.smtpError "connect")
  else if !env.ehloOk then .error (.smtpError "ehlo")
  else if !env.starttlsOk then .error (.smtpError "starttls")
  else if !env.loginOk then .error (.smtpError "login")
  else
    let _body := String.intercalate "\n"
      ["To: " ++ s.recipient, "From: " ++ s.sender,
       "Subject: " ++ s.emailSubject ++ "\n", s.emailMessage]
    let sent := env.sendmailOk
    if !env.quitOk then .error (.smtpError "quit")
    else .ok sent

/-- The assertion opening `Store.check`:
`assert isinstance(minutes, (int, float))`. -/
def checkMinutesAssert (minutes : PyVal) : Except PyError Unit :=
  if minutes.isNumeric then .ok ()
  else .error (.assertionError "Minutes must be an integer or float")

/-- Every tracked item has a known (boolean) stock state. -/
def allKnown (items : List Item) : Prop :=
  ∀ item ∈ items, item.stock ≠ Option.none

/-- No two tracked items share a URL. -/
def noDupUrls (items : List Item) : Prop :=
  (items.map Item.url).Nodup

/-! Section: Helper lemmas about `Item.update` and the item loops -/

theorem Item.update_url_eq (item : Item) (f : Except PyError String) :
    ((item.update f).1).url = item.url := by
  cases f with
  | error e => rfl
  | ok text => by_cases ht : text.isEmpty <;> simp [Item.update, ht]

theorem Item.update_stockString_eq (item : Item) (f : Except PyError String) :
    ((item.update f).1).stockString = item.stockString := by
  cases f with
  | error e => rfl
  | ok text => by_cases ht : text.isEmpty <;> simp [Item.update, ht]

theorem Item.update_error_fst (item : Item) (f : Except PyError String)
    (h : (item.update f).2 ≠ Option.none) : (item.update f).1 = item := by
  cases f with
  | error e => rfl
  | ok text =>
    by_cases ht : text.isEmpty
    · simp [Item.update, ht]
    · simp [Item.update, ht] at h

theorem Item.update_ok_stock (item : Item) (f : Except PyError String)
    (h : (item.update f).2 = Option.none) :
    ((item.update f).1).stock ≠ Option.none := by
  cases f with
  | error e => simp [Item.update] at h
  | ok text =>
    by_cases ht : text.isEmpty
    · simp [Item.update, ht] at h
    · simp [Item.update, ht]

theorem updateAll_allKnown (fetch : String → Except PyError String)
    (l : List Item) (h : allKnown l) : allKnown (updateAll fetch l).1 := by
  induction l with
  | nil => simpa [updateAll] using h
  | cons item rest ih =>
    have hhead : item.stock ≠ Option.none := h item (List.mem_cons_self _ _)
    have hrest : allKnown rest := fun i hi => h i (List.mem_cons_of_mem _ hi)
    have ih2 := ih hrest
    intro i hi
    rcases hu : item.update (fetch item.url) with ⟨i0, err⟩
    simp only [updateAll, hu] at hi
    cases err with
    | some e =>
      simp only [List.mem_cons] at hi
      rcases hi with hi | hi
      · have hfst : i0 = item := by
          have := Item.update_error_fst item (fetch item.url)
            (by rw [hu]; simp)
          rw [hu] at this; exact this
        rw [hi, hfst]; exact hhead
      · exact hrest i hi
    | none =>
      simp only [List.mem_cons] at hi
      rcases hi with hi | hi
      · have := Item.update_ok_stock item (fetch item.url) (by rw [hu])
        rw [hu] at this
        rw [hi]; simpa using this
      · exact ih2 i hi

theorem sum_toNat_eq_length_filter (p : Item → Bool) (l : List Item) :
    (l.map (fun i => (p i).toNat)).sum = (l.filter p).length := by
  induction l with
  | nil => rfl
  | cons a t ih =>
    cases h : p a <;> simp [List.filter_cons, h, ih]
    omega

theorem Store.add_str_skip (s : Store) (fetch : String → Except PyError String)
    (u : String) (rest : List PyVal)
    (hc : s.items.any (fun item => item.url == u) = true) :
    s.add fetch (PyVal.str u :: rest) = s.add fetch rest := by
  simp [Store.add, hc]

theorem Store.add_str_fail (s : Store) (fetch : String → Except PyError String)
    (u : String) (rest : List PyVal)
    (hc : s.items.any (fun item => item.url == u) = false)
    (ni : Item) (e : PyError)
    (hupd : (Item.init u).update (fetch u) = (ni, Option.some e)) :
    s.add fetch (PyVal.str u :: rest) = (s, Option.some e) := by
  simp [Store.add, hc, hupd]

theorem Store.add_str_grow (s : Store) (fetch : String → Except PyError String)
    (u : String) (rest : List PyVal)
    (hc : s.items.any (fun item => item.url == u) = false)
    (ni : Item) (hupd : (Item.init u).update (fetch u) = (ni, Option.none)) :
    s.add fetch (PyVal.str u :: rest) =
      Store.add { s with items := s.items ++ [ni] } fetch rest := by
  simp [Store.add, hc, hupd]

theorem add_preserves_noDupUrls (fetch : String → Except PyError String) :
    ∀ (urls : List PyVal) (s : Store), noDupUrls s.items →
      noDupUrls ((s.add fetch urls).1).items := by
  intro urls
  induction urls with
  | nil => intro s h; simpa [Store.add] using h
  | cons url rest ih =>
    intro s h
    cases url with
    | str u =>
      by_cases hc : s.items.any (fun item => item.url == u) = true
      · rw [Store.add_str_skip s fetch u rest hc]; exact ih s h
      · have hcf : s.items.any (fun item => item.url == u) = false := by
          simpa using hc
        rcases hupd : (Item.init u).update (fetch u) with ⟨ni, err⟩
        cases err with
        | some e => rw [Store.add_str_fail s fetch u rest hcf ni e hupd]; exact h
        | none =>
          have hurl : ni.url = u := by
            have := Item.update_url_eq (Item.init u) (fetch u)
            rw [hupd] at this
            simpa [Item.init] using this
          have hnotin : u ∉ s.items.map Item.url := by
            intro hmem
            rcases List.mem_map.1 hmem with ⟨i, hi, hiu⟩
            have := (List.any_eq_false.1 hcf) i hi
            simp [hiu] at this
          have hnd : noDupUrls (s.items ++ [ni]) := by
            unfold noDupUrls at h ⊢
            rw [List.map_append]
            rw [List.nodup_append]
            refine ⟨h, by simp, ?_⟩
            intro a ha hb
            simp [hurl] at hb
            rw [hb] at ha
            exact hnotin ha
          rw [Store.add_str_grow s fetch u rest hcf ni hupd]
          exact ih _ hnd
    | none => simpa [Store.add] using h
    | bool b => simpa [Store.add] using h
    | int n => simpa [Store.add] using h
    | float => simpa [Store.add] using h

theorem add_preserves_allKnown (fetch : String → Except PyError String) :
    ∀ (urls : List PyVal) (s : Store), allKnown s.items →
      allKnown ((s.add fetch urls).1).items := by
  intro urls
  induction urls with
  | nil => intro s h; simpa [Store.add] using h
  | cons url rest ih =>
    intro s h
    cases url with
    | str u =>
      by_cases hc : s.items.any (fun item => item.url == u) = true
      · rw [Store.add_str_skip s fetch u rest hc]; exact ih s h
      · have hcf : s.items.any (fun item => item.url == u) = false := by
          simpa using hc
        rcases hupd : (Item.init u).update (fetch u) with ⟨ni, err⟩
        cases err with
        | some e => rw [Store.add_str_fail s fetch u rest hcf ni e hupd]; exact h
        | none =>
          have hstock : ni.stock ≠ Option.none := by
            have := Item.update_ok_stock (Item.init u) (fetch u) (by rw [hupd])
            rw [hupd] at this
            simpa using this
          have hk : allKnown (s.items ++ [ni]) := by
            intro i hi
            rcases List.mem_append.1 hi with hi | hi
            · exact h i hi
            · rw [List.mem_singleton.1 hi]; exact hstock
          rw [Store.add_str_grow s fetch u rest hcf ni hupd]
          exact ih _ hk
    | none => simpa [Store.add] using h
    | bool b => simpa [Store.add] using h
    | int n => simpa [Store.add] using h
    | float => simpa [Store.add] using h

theorem Store.update_items_eq (s : Store)
    (fetch : String → Except PyError String) :
    ((s.update fetch).1).items = (updateAll fetch s.items).1 := by
  unfold Store.update
  rcases hu : updateAll fetch s.items with ⟨its, err⟩
  cases err with
  | some e => rfl
  | none =>
    dsimp only
    by_cases hd : s.debug = true
    · rw [if_pos hd]
    · rw [if_neg hd]

/-! Section: Concrete sample states used to instantiate the theorems -/

def sampleItem : Item :=
  { url := "u", stock := Option.some false, stockChanged := false,
    stockString := "In stock" }

def sampleStore : Store :=
  { items := [], newInStock := 0, totalInStock := 0, debug := false,
    server := "smtp.example.com", port := 587, sender := "alice@example.com",
    recipient := "alice@example.com", password := Option.some "pw" }

def store1 : Store := { sampleStore with items := [sampleItem] }

def fetchInStock : String → Except PyError String :=
  fun _ => Except.ok "In stock"

def fetchEmptyBody : String → Except PyError String :=
  fun _ => Except.ok ""

/-! Section: Claim theorems -/

/-- C1: after a successful `Item.update`, `stockChanged` is true iff the
newly computed marker presence differs from the prior `stock` and that
prior value was known; in particular the first successful update never
sets `stockChanged`. -/
theorem C1_changed_edge_detector (item : Item) (text : String) (item1 : Item)
    (h : item.update (Except.ok text) = (item1, Option.none)) :
    (item1.stockChanged = true ↔
      (Option.some (containsMarker item.stockString text) ≠ item.stock ∧
        item.stock ≠ Option.none))
    ∧ (item.stock = Option.none → item1.stockChanged = false) := by
  by_cases ht : text.isEmpty
  · simp [Item.update, ht] at h
  · simp only [Item.update, ht, if_neg, Bool.false_eq_true, ite_false,
      Prod.mk.injEq] at h
    obtain ⟨h1, -⟩ := h
    subst h1
    constructor
    · simp [Bool.and_eq_true, decide_eq_true_eq]
    · intro h2; simp [h2]

/-- C1 witness: a first update with the marker present leaves
`stockChanged = false`. -/
theorem C1_changed_edge_detector_witness :
    ({ url := "u", stock := Option.some true, stockChanged := false,
       stockString := "In stock" } : Item).stockChanged = false :=
  (C1_changed_edge_detector (Item.init "u") "In stock"
    { url := "u", stock := Option.some true, stockChanged := false,
      stockString := "In stock" } (by decide)).2 rfl

/-- C7: with a successful fetch, `Item.update` raises the data-missing
`ValueError` iff the body is empty; on a non-empty body no error is
raised and the freshly computed stock value is stored. -/
theorem C7_data_missing_iff_empty (item : Item) (text : String) :
    (((item.update (Except.ok text)).2 =
        Option.some (PyError.valueError "Data missing from request")) ↔
      text.isEmpty = true)
    ∧ (text.isEmpty = false →
        (item.update (Except.ok text)).2 = Option.none ∧
        ((item.update (Except.ok text)).1).stock =
          Option.some (containsMarker item.stockString text)) := by
  by_cases ht : text.isEmpty <;> simp [Item.update, ht]

/-- C7 witness at a concrete non-empty body. -/
theorem C7_data_missing_iff_empty_witness :
    ((Item.init "u").update (Except.ok "In stock")).2 = Option.none ∧
    (((Item.init "u").update (Except.ok "In stock")).1).stock =
      Option.some (containsMarker (Item.init "u").stockString "In stock") :=
  (C7_data_missing_iff_empty (Item.init "u") "In stock").2 (by decide)

/-- C9: when the fetched body is empty, `Item.update` raises before any
mutation: the item state is returned exactly as it was. -/
theorem C9_error_before_mutation (item : Item) (text : String)
    (h : text.isEmpty = true) :
    item.update (Except.ok text) =
      (item, Option.some (PyError.valueError "Data missing from request")) := by
  simp [Item.update, h]

/-- C9 witness at the empty body. -/
theorem C9_error_before_mutation_witness :
    (Item.init "http://x").update (Except.ok "") =
      (Item.init "http://x",
        Option.some (PyError.valueError "Data missing from request")) :=
  C9_error_before_mutation (Item.init "http://x") "" (by decide)

/-- C6: the email subject is exactly the template given in the spec
`"({new} new, {total} total) items in stock"` with the two counters
substituted, e.g. `(2 new, 5 total) items in stock`. -/
theorem C6_subject_format :
    (∀ s : Store, s.emailSubject = specEmailSubject s.newInStock s.totalInStock)
    ∧ specEmailSubject 2 5 = "(2 new, 5 total) items in stock" :=
  ⟨fun _ => rfl, by decide⟩

/-- C4: after a poll cycle (`Store.update`) that raises no exception, in
non-debug mode `newInStock` counts the items with `stockChanged = true` and
`totalInStock` counts the items currently in stock; in debug mode both
counters equal the number of tracked items. -/
theorem C4_poll_counts (s : Store) (fetch : String → Except PyError String)
    (s1 : Store) (h : s.update fetch = (s1, Option.none)) :
    (s.debug = false →
      s1.newInStock = (s1.items.filter (fun i => i.stockChanged)).length ∧
      s1.totalInStock =
        (s1.items.filter (fun i => i.stock == Option.some true)).length)
    ∧ (s.debug = true →
      s1.newInStock = s1.items.length ∧ s1.totalInStock = s1.items.length) := by
  rcases hu : updateAll fetch s.items with ⟨its, err⟩
  unfold Store.update at h
  rw [hu] at h
  cases err with
  | some e => simp at h
  | none =>
    dsimp only at h
    by_cases hd : s.debug = true
    · rw [if_pos hd] at h
      simp only [Prod.mk.injEq, and_true] at h
      subst h
      refine ⟨fun h2 => ?_, fun _ => ⟨rfl, rfl⟩⟩
      rw [hd] at h2; exact Bool.noConfusion h2
    · rw [if_neg hd] at h
      simp only [Prod.mk.injEq, and_true] at h
      subst h
      refine ⟨fun _ => ⟨?_, ?_⟩, fun h2 => absurd h2 hd⟩
      · exact sum_toNat_eq_length_filter (fun i => i.stockChanged) its
      · exact sum_toNat_eq_length_filter
          (fun i => i.stock == Option.some true) its

/-- C4 witness: a one-item store in non-debug mode. -/
theorem C4_poll_counts_witness :
    ((store1.update fetchInStock).1).newInStock =
      (((store1.update fetchInStock).1).items.filter
        (fun i => i.stockChanged)).length ∧
    ((store1.update fetchInStock).1).totalInStock =
      (((store1.update fetchInStock).1).items.filter
        (fun i => i.stock == Option.some true)).length :=
  (C4_poll_counts store1 fetchInStock ((store1.update fetchInStock).1)
    (by decide)).1 rfl

/-- C2 counterexample: a failure of the SMTP connection step makes
`Store.send_email` raise an exception instead of returning the boolean
`false`; so not every send-time failure is swallowed. -/
theorem C2_counterexample :
    sampleStore.sendEmail
      { connectOk := false, ehloOk := true, starttlsOk := true,
        loginOk := true, sendmailOk := true, quitOk := true } =
      Except.error (PyError.smtpError "connect") ∧
    Except.error (PyError.smtpError "connect") ≠
      (Except.ok false : Except PyError Bool) :=
  ⟨rfl, by simp⟩

/-- C2 amended: only a failure of the `sendmail` submission itself is
swallowed into a boolean (`false`); when the connection, EHLO, STARTTLS,
login and final quit all succeed, `send_email` returns `ok` with the
submission outcome. -/
theorem C2_amended_sendmail_only_swallowed (s : Store) (env : SmtpEnv)
    (hc : env.connectOk = true) (he : env.ehloOk = true)
    (hs : env.starttlsOk = true) (hl : env.loginOk = true)
    (hq : env.quitOk = true) :
    s.sendEmail env = Except.ok env.sendmailOk := by
  simp [Store.sendEmail, hc, he, hs, hl, hq]

/-- C2 witness: a failed submission is reported as `ok false`, not raised. -/
theorem C2_amended_sendmail_only_swallowed_witness :
    sampleStore.sendEmail
      { connectOk := true, ehloOk := true, starttlsOk := true,
        loginOk := true, sendmailOk := false, quitOk := true } =
      Except.ok false :=
  C2_amended_sendmail_only_swallowed sampleStore
    { connectOk := true, ehloOk := true, starttlsOk := true,
      loginOk := true, sendmailOk := false, quitOk := true }
    rfl rfl rfl rfl rfl

/-- C3: evaluating `Store.__init__` with a supplied (non-None) distinct
recipient shows the code discards it and sets the recipient to the sender,
contradicting the claim (and the class docstring). -/
theorem C3_supplied_recipient_discarded :
    Store.init (Option.some "smtp.example.com") (PyVal.int 587)
      (Option.some "alice@example.com") (Option.some "pw")
      (Option.some "bob@example.com") false "" "" "" =
      Except.ok sampleStore ∧
    sampleStore.recipient = "alice@example.com" ∧
    sampleStore.recipient ≠ "bob@example.com" :=
  ⟨rfl, rfl, by decide⟩

/-- C8: each configuration error raises its descriptive `AssertionError`:
non-int port, `None` sender (the value that the assertion message in the setter
calls empty), non-string URL passed to `add`, non-numeric minutes passed to
`check`. -/
theorem C8_config_assertions (v u w : PyVal) (s : Store)
    (fetch : String → Except PyError String) (urls : List PyVal)
    (hv : v.isInt = false) (hu : u.isStr = false) (hw : w.isNumeric = false) :
    portSetter v = Except.error (PyError.assertionError "Must be int") ∧
    senderSetter PyVal.none =
      Except.error (PyError.assertionError "Sender address cannot be empty") ∧
    (s.add fetch (u :: urls)).2 =
      Option.some (PyError.assertionError "URL must be a string") ∧
    checkMinutesAssert w =
      Except.error
        (PyError.assertionError "Minutes must be an integer or float") := by
  refine ⟨?_, rfl, ?_, ?_⟩
  · cases v <;> simp_all [portSetter, PyVal.isInt]
  · cases u <;> simp_all [Store.add, PyVal.isStr]
  · simp [checkMinutesAssert, hw]

/-- C8 witness at concrete ill-typed configuration values. -/
theorem C8_config_assertions_witness :
    portSetter (PyVal.str "x") =
      Except.error (PyError.assertionError "Must be int") ∧
    senderSetter PyVal.none =
      Except.error (PyError.assertionError "Sender address cannot be empty") ∧
    (sampleStore.add fetchInStock [PyVal.int 0]).2 =
      Option.some (PyError.assertionError "URL must be a string") ∧
    checkMinutesAssert (PyVal.str "15") =
      Except.error
        (PyError.assertionError "Minutes must be an integer or float") :=
  C8_config_assertions (PyVal.str "x") (PyVal.int 0) (PyVal.str "15")
    sampleStore fetchInStock [] rfl rfl rfl

/-- C5: `Store.add` never creates a second item for an already-tracked URL:
URL uniqueness of the item set is preserved, adding a tracked URL is a
no-op, and adding the same URL twice to an empty store yields exactly one
tracked item. -/
theorem C5_no_duplicate_urls :
    (∀ (fetch : String → Except PyError String) (urls : List PyVal)
        (s : Store), noDupUrls s.items →
      noDupUrls ((s.add fetch urls).1).items)
    ∧ (∀ (fetch : String → Except PyError String) (s : Store) (u : String),
        s.items.any (fun item => item.url == u) = true →
        s.add fetch [PyVal.str u] = (s, Option.none))
    ∧ (∀ (fetch : String → Except PyError String) (s : Store) (u : String),
        s.items = [] →
        (s.add fetch [PyVal.str u, PyVal.str u]).2 = Option.none →
        ((s.add fetch [PyVal.str u, PyVal.str u]).1).items.length = 1) := by
  refine ⟨add_preserves_noDupUrls, ?_, ?_⟩
  · intro fetch s u hc
    rw [Store.add_str_skip s fetch u [] hc]
    rfl
  · intro fetch s u hempty hok
    have hcf : s.items.any (fun item => item.url == u) = false := by
      rw [hempty]; rfl
    rcases hupd : (Item.init u).update (fetch u) with ⟨ni, err⟩
    cases err with
    | some e =>
      rw [Store.add_str_fail s fetch u [PyVal.str u] hcf ni e hupd] at hok
      simp at hok
    | none =>
      have hurl : ni.url = u := by
        have := Item.update_url_eq (Item.init u) (fetch u)
        rw [hupd] at this
        simpa [Item.init] using this
      rw [Store.add_str_grow s fetch u [PyVal.str u] hcf ni hupd]
      have hc2 : ({ s with items := s.items ++ [ni] } : Store).items.any
          (fun item => item.url == u) = true := by
        simp [hempty, hurl]
      rw [Store.add_str_skip _ fetch u [] hc2]
      simp [Store.add, hempty]

/-- C5 witness: uniqueness at concrete stores, including a double add of
the same URL. -/
theorem C5_no_duplicate_urls_witness :
    noDupUrls (((sampleStore.add fetchInStock [PyVal.str "u"]).1).items) ∧
    store1.add fetchInStock [PyVal.str "u"] = (store1, Option.none) ∧
    ((sampleStore.add fetchInStock
        [PyVal.str "u", PyVal.str "u"]).1).items.length = 1 :=
  ⟨C5_no_duplicate_urls.1 fetchInStock [PyVal.str "u"] sampleStore
      (by simp [noDupUrls, sampleStore]),
   C5_no_duplicate_urls.2.1 fetchInStock store1 "u" (by decide),
   C5_no_duplicate_urls.2.2 fetchInStock sampleStore "u" rfl (by decide)⟩

/-- C10: every tracked item has a known boolean stock state: `add` inserts
an item only after a successful first update (and a store to which a
failing URL is added is returned unchanged), and `update` and `remove`
preserve the invariant. -/
theorem C10_all_stock_known :
    (∀ (fetch : String → Except PyError String) (urls : List PyVal)
        (s : Store), allKnown s.items → allKnown ((s.add fetch urls).1).items)
    ∧ (∀ (fetch : String → Except PyError String) (s : Store),
        allKnown s.items → allKnown ((s.update fetch).1).items)
    ∧ (∀ (s : Store) (urls : List PyVal),
        allKnown s.items → allKnown ((s.remove urls).1).items)
    ∧ (∀ (fetch : String → Except PyError String) (s : Store) (u : String),
        ((Item.init u).update (fetch u)).2 ≠ Option.none →
        (s.add fetch [PyVal.str u]).1 = s) := by
  refine ⟨add_preserves_allKnown, ?_, ?_, ?_⟩
  · intro fetch s h
    rw [Store.update_items_eq]
    exact updateAll_allKnown fetch s.items h
  · intro s urls h
    by_cases ha : urls.all PyVal.isStr = true
    · intro i hi
      rw [Store.remove, if_pos ha] at hi
      simp only [List.mem_filter] at hi
      exact h i hi.1
    · intro i hi
      rw [Store.remove, if_neg ha] at hi
      exact h i hi
  · intro fetch s u hfail
    by_cases hc : s.items.any (fun item => item.url == u) = true
    · rw [Store.add_str_skip s fetch u [] hc]; rfl
    · have hcf : s.items.any (fun item => item.url == u) = false := by
        simpa using hc
      rcases hupd : (Item.init u).update (fetch u) with ⟨ni, err⟩
      cases err with
      | some e => rw [Store.add_str_fail s fetch u [] hcf ni e hupd]
      | none => rw [hupd] at hfail; simp at hfail

/-- C10 witness: a successful add keeps all stock states known, and a URL
whose first update fails (empty body) leaves the store unchanged. -/
theorem C10_all_stock_known_witness :
    allKnown (((sampleStore.add fetchInStock [PyVal.str "u"]).1).items) ∧
    (sampleStore.add fetchEmptyBody [PyVal.str "u"]).1 = sampleStore :=
  ⟨C10_all_stock_known.1 fetchInStock [PyVal.str "u"] sampleStore
      (by intro i hi; simp [sampleStore] at hi),
   C10_all_stock_known.2.2.2 fetchEmptyBody sampleStore "u" (by decide)⟩

end Chimestock
